import Mathlib

/- Shallow embedding of the TFTP client `src/tftp_2289020.py`.

   Bytes are modelled as natural numbers (values below 256 on the wire);
   byte strings as lists of naturals.  The UDP socket is modelled by a
   list of receive outcomes (`NetEvent`): each call to `sock.recvfrom`
   consumes one outcome, which is either a timeout or a datagram together
   with its source address.  Every `sock.sendto` and every consumed
   receive outcome is recorded in an observable trace of `IoEv` entries.
   `struct.pack` with the signed 16-bit format directive fails with
   `struct.error` for values above 32767; this is modelled by `Option`.
   The local file is modelled by its byte content: `Option (List Nat)`
   for upload (`none` models a file that cannot be opened for reading),
   a `Bool` open-success flag plus an accumulated output list for
   download. -/

namespace Tftp

/-- Constant `BLOCK_SIZE = 512` from the source. -/
def BLOCK_SIZE : Nat := 512

/-- Constant `TIMEOUT = 5` from the source (socket timeout in seconds). -/
def TIMEOUT : Nat := 5

/-- Entry `RRQ` of the source's OPCODE dictionary. -/
def OPCODE_RRQ : Nat := 1

/-- Entry `WRQ` of the source's OPCODE dictionary. -/
def OPCODE_WRQ : Nat := 2

/-- Entry `DATA` of the source's OPCODE dictionary. -/
def OPCODE_DATA : Nat := 3

/-- Entry `ACK` of the source's OPCODE dictionary. -/
def OPCODE_ACK : Nat := 4

/-- Entry `ERROR` of the source's OPCODE dictionary. -/
def OPCODE_ERROR : Nat := 5

/-- The source's `octet` default transfer mode as a byte string. -/
def DEFAULT_TRANSFER_MODE : List Nat := [111, 99, 116, 101, 116]

/-- The source's ERROR_CODE dictionary; `none` models a missing key. -/
def ERROR_CODE (c : Nat) : Option String :=
  if c = 0 then some "Not defined, see error message (if any)."
  else if c = 1 then some "File not found."
  else if c = 2 then some "Access violation."
  else if c = 3 then some "Disk full or allocation exceeded."
  else if c = 4 then some "Illegal TFTP operation."
  else if c = 5 then some "Unknown transfer ID."
  else if c = 6 then some "File already exists."
  else if c = 7 then some "No such user."
  else none

/-- Python `ERROR_CODE.get(error_code, 'Unknown error')` from line 111. -/
def errMsg (c : Nat) : String := (ERROR_CODE c).getD "Unknown error"

/-- Python `int.from_bytes(bs, 'big')`: big-endian unsigned interpretation. -/
def beNat (bs : List Nat) : Nat := bs.foldl (fun a b => 256 * a + b) 0

/-- Python `struct.pack` of one value under the big-endian signed 16-bit
    directive, restricted to the nonnegative values the client ever packs:
    it yields the two big-endian bytes for values up to 32767 and fails
    (struct.error) beyond that bound. -/
def pack_h (n : Nat) : Option (List Nat) :=
  if n ≤ 32767 then some [n / 256, n % 256] else none

/-- Wire bytes of the WRQ message built by `send_wrq` (lines 30-32):
    opcode 2 packed big-endian, filename, a zero byte, mode, a zero byte. -/
def send_wrq_bytes (filename mode : List Nat) : List Nat :=
  [0, OPCODE_WRQ] ++ filename ++ [0] ++ mode ++ [0]

/-- Wire bytes of the RRQ message built by `send_rrq` (lines 38-40). -/
def send_rrq_bytes (filename mode : List Nat) : List Nat :=
  [0, OPCODE_RRQ] ++ filename ++ [0] ++ mode ++ [0]

/-- Wire bytes of the Data packet built at line 66:
    `pack` of opcode 3, the block number (signed 16-bit directive, hence
    failure above 32767) and the payload bytes. -/
def data_packet (block : Nat) (payload : List Nat) : Option (List Nat) :=
  (pack_h block).map (fun b => [0, OPCODE_DATA] ++ b ++ payload)

/-- Wire bytes of the Ack packet built by `send_ack` (line 126). -/
def ack_packet (block : Nat) : Option (List Nat) :=
  (pack_h block).map (fun b => [0, OPCODE_ACK] ++ b)

/-- Outcome of one `sock.recvfrom` call: a timeout, or a datagram with
    its source address (addresses are abstracted as naturals). -/
inductive NetEvent where
  | timeout : NetEvent
  | datagram (bytes : List Nat) (src : Nat) : NetEvent
deriving DecidableEq, Repr

/-- One observable I/O action of the client: a `sendto` with destination
    address, a received datagram with source address, or an elapsed
    receive timeout. -/
inductive IoEv where
  | sent (bytes : List Nat) (dst : Nat) : IoEv
  | rcvd (bytes : List Nat) (src : Nat) : IoEv
  | tmo : IoEv
deriving DecidableEq, Repr

/-- Result of a `tftp_put` run. -/
inductive PutResult where
  | noServerResponse : PutResult
  | openError : PutResult
  | done : PutResult
  | packError : PutResult
  | stuck : PutResult
deriving DecidableEq, Repr

/-- Result of a `tftp_get` run; the `List Nat` component is the byte
    content written to the local file up to that point. -/
inductive GetResult where
  | noServerResponse : GetResult
  | openError : GetResult
  | done (fileOut : List Nat) : GetResult
  | midTimeout (fileOut : List Nat) : GetResult
  | serverError (msg : String) (fileOut : List Nat) : GetResult
  | protocolViolation (fileOut : List Nat) : GetResult
  | packError (fileOut : List Nat) : GetResult
  | stuck (fileOut : List Nat) : GetResult
deriving DecidableEq, Repr

/-- The `while True` loop of `tftp_put` (lines 60-78).  Each iteration
    reads the next chunk from the remaining file bytes `rem`; an empty
    read breaks out of the loop (normal completion).  Otherwise the Data
    packet for the current block number is sent to the current peer
    address and one receive outcome is consumed: recvfrom is limited to
    4 bytes, so the processed ack is the datagram truncated to 4 bytes;
    the block counter advances exactly when the truncated datagram's
    opcode is ACK and its trailing bytes equal the block number; on a
    timeout the loop continues (which re-reads the next chunk, exactly
    as the source's `continue` does).  `stuck` marks exhaustion of the
    supplied receive outcomes, a model artifact. -/
def putLoop (block_number : Nat) (rem : List Nat) (address : Nat)
    (events : List NetEvent) : List IoEv × PutResult :=
  if (rem.take BLOCK_SIZE).isEmpty then ([], .done)
  else
    match data_packet block_number (rem.take BLOCK_SIZE) with
    | none => ([], .packError)
    | some pkt =>
      match events with
      | [] => ([.sent pkt address], .stuck)
      | .timeout :: rest =>
        let r := putLoop block_number (rem.drop BLOCK_SIZE) address rest
        (.sent pkt address :: .tmo :: r.1, r.2)
      | .datagram d a :: rest =>
        let ack := d.take 4
        let bn' :=
          if beNat (ack.take 2) = OPCODE_ACK ∧ beNat (ack.drop 2) = block_number
          then block_number + 1 else block_number
        let r := putLoop bn' (rem.drop BLOCK_SIZE) a rest
        (.sent pkt address :: .rcvd d a :: r.1, r.2)

/-- The function `tftp_put` (lines 42-78).  It sends the WRQ to the
    given server address, waits for one datagram (any content) rebinding
    the peer address to its source, only then opens the local file
    (`fileContent = none` models an unreadable file, in which case the
    `open` at line 58 raises after the WRQ is already on the wire), and
    runs the block loop starting at block number 1. -/
def tftp_put (filename : List Nat) (fileContent : Option (List Nat))
    (server_address : Nat) (events : List NetEvent) : List IoEv × PutResult :=
  let wrq := IoEv.sent (send_wrq_bytes filename DEFAULT_TRANSFER_MODE) server_address
  match events with
  | [] => ([wrq], .stuck)
  | .timeout :: _ => ([wrq, .tmo], .noServerResponse)
  | .datagram d a :: rest =>
    match fileContent with
    | none => ([wrq, .rcvd d a], .openError)
    | some content =>
      let r := putLoop 1 content a rest
      (wrq :: .rcvd d a :: r.1, r.2)

/-- The `while True` loop of `tftp_get` (lines 98-120).  `data` is the
    most recently received datagram truncated to 516 bytes (the recvfrom
    bound), `address` its source, `out` the bytes written to the local
    file so far.  Opcode is the first two bytes big-endian.  For DATA,
    the block number is bytes 2..4; only a matching block is written and
    acked (the source's signed pack in `send_ack` fails above 32767,
    modelled by `packError`) and advances the counter; the short-payload
    termination check runs whether or not the block matched.  ERROR
    reports the looked-up message and breaks; any other opcode breaks
    silently. -/
def getLoop (block_number : Nat) (out : List Nat) (data : List Nat)
    (address : Nat) (events : List NetEvent) : List IoEv × GetResult :=
  if beNat (data.take 2) = OPCODE_DATA then
    if beNat ((data.drop 2).take 2) = block_number then
      let out' := out ++ data.drop 4
      match ack_packet (beNat ((data.drop 2).take 2)) with
      | none => ([], .packError out')
      | some apkt =>
        if (data.drop 4).length < BLOCK_SIZE then
          ([.sent apkt address], .done out')
        else
          match events with
          | [] => ([.sent apkt address], .stuck out')
          | .timeout :: _ => ([.sent apkt address, .tmo], .midTimeout out')
          | .datagram d a :: rest =>
            let r := getLoop (block_number + 1) out' (d.take 516) a rest
            (.sent apkt address :: .rcvd d a :: r.1, r.2)
    else
      if (data.drop 4).length < BLOCK_SIZE then ([], .done out)
      else
        match events with
        | [] => ([], .stuck out)
        | .timeout :: _ => ([.tmo], .midTimeout out)
        | .datagram d a :: rest =>
          let r := getLoop block_number out (d.take 516) a rest
          (.rcvd d a :: r.1, r.2)
  else if beNat (data.take 2) = OPCODE_ERROR then
    ([], .serverError (errMsg (beNat ((data.drop 2).take 2))) out)
  else
    ([], .protocolViolation out)

/-- The function `tftp_get` (lines 80-120).  It sends the RRQ to the
    given server address, waits for one datagram rebinding the peer
    address to its source, only then opens the local file for writing
    (`canOpen = false` models a destination that cannot be created, in
    which case the `open` at line 96 raises after the RRQ is already on
    the wire), and enters the receive loop expecting block number 1. -/
def tftp_get (filename : List Nat) (canOpen : Bool) (server_address : Nat)
    (events : List NetEvent) : List IoEv × GetResult :=
  let rrq := IoEv.sent (send_rrq_bytes filename DEFAULT_TRANSFER_MODE) server_address
  match events with
  | [] => ([rrq], .stuck [])
  | .timeout :: _ => ([rrq, .tmo], .noServerResponse)
  | .datagram d a :: rest =>
    if canOpen then
      let r := getLoop 1 [] (d.take 516) a rest
      (rrq :: .rcvd d a :: r.1, r.2)
    else ([rrq, .rcvd d a], .openError)

/-- The DATA-opcode packets among the sends of a trace. -/
def dataSends (tr : List IoEv) : List (List Nat) :=
  tr.filterMap fun e =>
    match e with
    | .sent b _ => if beNat (b.take 2) = OPCODE_DATA then some b else none
    | _ => none

/-- Field extraction applied to a received buffer by `tftp_get`
    (lines 99-103): opcode from bytes 0..2, block number from bytes 2..4,
    payload from byte 4 on, with no length validation. -/
def decode_data_fields (b : List Nat) : Nat × Nat × List Nat :=
  (beNat (b.take 2), beNat ((b.drop 2).take 2), b.drop 4)

/-- Checks that every send in a trace is addressed to the current peer,
    where the current peer starts as `cur` and is rebound to the source
    of each received datagram as the trace is scanned. -/
def sendsFollowLast (cur : Nat) : List IoEv → Bool
  | [] => true
  | .sent _ ad :: rest => (ad == cur) && sendsFollowLast cur rest
  | .rcvd _ a :: rest => sendsFollowLast a rest
  | .tmo :: rest => sendsFollowLast cur rest

set_option maxRecDepth 100000

set_option smartUnfolding false in
/-- Unfolding of `putLoop` when the receive outcomes are exhausted. -/
theorem putLoop_nil (bn : Nat) (rem : List Nat) (addr : Nat) :
    putLoop bn rem addr [] =
      if (rem.take BLOCK_SIZE).isEmpty then ([], .done)
      else match data_packet bn (rem.take BLOCK_SIZE) with
        | none => ([], .packError)
        | some pkt => ([.sent pkt addr], .stuck) := rfl

set_option smartUnfolding false in
/-- Unfolding of `putLoop` when the next receive outcome is a timeout. -/
theorem putLoop_cons_tmo (bn : Nat) (rem : List Nat) (addr : Nat) (rest : List NetEvent) :
    putLoop bn rem addr (.timeout :: rest) =
      if (rem.take BLOCK_SIZE).isEmpty then ([], .done)
      else match data_packet bn (rem.take BLOCK_SIZE) with
        | none => ([], .packError)
        | some pkt =>
          (.sent pkt addr :: .tmo :: (putLoop bn (rem.drop BLOCK_SIZE) addr rest).1,
           (putLoop bn (rem.drop BLOCK_SIZE) addr rest).2) := rfl

set_option smartUnfolding false in
/-- Unfolding of `putLoop` when the next receive outcome is a datagram. -/
theorem putLoop_cons_dg (bn : Nat) (rem : List Nat) (addr : Nat) (d : List Nat) (a : Nat)
    (rest : List NetEvent) :
    putLoop bn rem addr (.datagram d a :: rest) =
      if (rem.take BLOCK_SIZE).isEmpty then ([], .done)
      else match data_packet bn (rem.take BLOCK_SIZE) with
        | none => ([], .packError)
        | some pkt =>
          (.sent pkt addr :: .rcvd d a ::
            (putLoop (if beNat ((d.take 4).take 2) = OPCODE_ACK ∧ beNat ((d.take 4).drop 2) = bn
                then bn + 1 else bn) (rem.drop BLOCK_SIZE) a rest).1,
           (putLoop (if beNat ((d.take 4).take 2) = OPCODE_ACK ∧ beNat ((d.take 4).drop 2) = bn
                then bn + 1 else bn) (rem.drop BLOCK_SIZE) a rest).2) := rfl

set_option smartUnfolding false in
/-- Unfolding of `getLoop` when the receive outcomes are exhausted. -/
theorem getLoop_nil (bn : Nat) (out data : List Nat) (addr : Nat) :
    getLoop bn out data addr [] =
      if beNat (data.take 2) = OPCODE_DATA then
        if beNat ((data.drop 2).take 2) = bn then
          match ack_packet (beNat ((data.drop 2).take 2)) with
          | none => ([], .packError (out ++ data.drop 4))
          | some apkt =>
            if (data.drop 4).length < BLOCK_SIZE then
              ([.sent apkt addr], .done (out ++ data.drop 4))
            else ([.sent apkt addr], .stuck (out ++ data.drop 4))
        else
          if (data.drop 4).length < BLOCK_SIZE then ([], .done out)
          else ([], .stuck out)
      else if beNat (data.take 2) = OPCODE_ERROR then
        ([], .serverError (errMsg (beNat ((data.drop 2).take 2))) out)
      else ([], .protocolViolation out) := rfl

set_option smartUnfolding false in
/-- Unfolding of `getLoop` when the next receive outcome is a timeout. -/
theorem getLoop_cons_tmo (bn : Nat) (out data : List Nat) (addr : Nat) (rest : List NetEvent) :
    getLoop bn out data addr (.timeout :: rest) =
      if beNat (data.take 2) = OPCODE_DATA then
        if beNat ((data.drop 2).take 2) = bn then
          match ack_packet (beNat ((data.drop 2).take 2)) with
          | none => ([], .packError (out ++ data.drop 4))
          | some apkt =>
            if (data.drop 4).length < BLOCK_SIZE then
              ([.sent apkt addr], .done (out ++ data.drop 4))
            else ([.sent apkt addr, .tmo], .midTimeout (out ++ data.drop 4))
        else
          if (data.drop 4).length < BLOCK_SIZE then ([], .done out)
          else ([.tmo], .midTimeout out)
      else if beNat (data.take 2) = OPCODE_ERROR then
        ([], .serverError (errMsg (beNat ((data.drop 2).take 2))) out)
      else ([], .protocolViolation out) := rfl

set_option smartUnfolding false in
/-- Unfolding of `getLoop` when the next receive outcome is a datagram. -/
theorem getLoop_cons_dg (bn : Nat) (out data : List Nat) (addr : Nat) (d : List Nat) (a : Nat)
    (rest : List NetEvent) :
    getLoop bn out data addr (.datagram d a :: rest) =
      if beNat (data.take 2) = OPCODE_DATA then
        if beNat ((data.drop 2).take 2) = bn then
          match ack_packet (beNat ((data.drop 2).take 2)) with
          | none => ([], .packError (out ++ data.drop 4))
          | some apkt =>
            if (data.drop 4).length < BLOCK_SIZE then
              ([.sent apkt addr], .done (out ++ data.drop 4))
            else
              (.sent apkt addr :: .rcvd d a ::
                (getLoop (bn + 1) (out ++ data.drop 4) (d.take 516) a rest).1,
               (getLoop (bn + 1) (out ++ data.drop 4) (d.take 516) a rest).2)
        else
          if (data.drop 4).length < BLOCK_SIZE then ([], .done out)
          else
            (.rcvd d a :: (getLoop bn out (d.take 516) a rest).1,
             (getLoop bn out (d.take 516) a rest).2)
      else if beNat (data.take 2) = OPCODE_ERROR then
        ([], .serverError (errMsg (beNat ((data.drop 2).take 2))) out)
      else ([], .protocolViolation out) := rfl

@[simp] theorem sendsFollowLast_nil (c : Nat) : sendsFollowLast c [] = true := rfl

@[simp] theorem sendsFollowLast_sent (c : Nat) (b : List Nat) (ad : Nat) (l : List IoEv) :
    sendsFollowLast c (.sent b ad :: l) = ((ad == c) && sendsFollowLast c l) := rfl

@[simp] theorem sendsFollowLast_rcvd (c : Nat) (b : List Nat) (a : Nat) (l : List IoEv) :
    sendsFollowLast c (.rcvd b a :: l) = sendsFollowLast a l := rfl

@[simp] theorem sendsFollowLast_tmo (c : Nat) (l : List IoEv) :
    sendsFollowLast c (.tmo :: l) = sendsFollowLast c l := rfl

/-- Every send of the upload block loop goes to the current peer address,
    which is rebound to the source of each received datagram. -/
theorem putLoop_sends (events : List NetEvent) : ∀ (bn : Nat) (rem : List Nat) (addr : Nat),
    sendsFollowLast addr (putLoop bn rem addr events).1 = true := by
  induction events with
  | nil =>
    intro bn rem addr
    rw [putLoop_nil]
    split
    · simp
    · split <;> simp
  | cons e rest ih =>
    intro bn rem addr
    cases e with
    | timeout =>
      rw [putLoop_cons_tmo]
      split
      · simp
      · split
        · simp
        · simp [ih]
    | datagram d a =>
      rw [putLoop_cons_dg]
      split
      · simp
      · split
        · simp
        · simp [ih]

/-- Every send of the download loop goes to the current peer address,
    which is rebound to the source of each received datagram. -/
theorem getLoop_sends (events : List NetEvent) :
    ∀ (bn : Nat) (out data : List Nat) (addr : Nat),
    sendsFollowLast addr (getLoop bn out data addr events).1 = true := by
  induction events with
  | nil =>
    intro bn out data addr
    rw [getLoop_nil]
    repeat' split
    all_goals simp
  | cons e rest ih =>
    intro bn out data addr
    cases e with
    | timeout =>
      rw [getLoop_cons_tmo]
      repeat' split
      all_goals simp
    | datagram d a =>
      rw [getLoop_cons_dg]
      repeat' split
      all_goals simp [ih]

/-- The download loop terminates with `done` and no write, no send, on a
    DATA datagram whose block number mismatches but whose payload is
    shorter than `BLOCK_SIZE`. -/
theorem getLoop_mismatch_short (bn : Nat) (out data : List Nat) (addr : Nat)
    (events : List NetEvent) (h3 : beNat (data.take 2) = OPCODE_DATA)
    (hne : beNat ((data.drop 2).take 2) ≠ bn)
    (hlen : (data.drop 4).length < BLOCK_SIZE) :
    getLoop bn out data addr events = ([], .done out) := by
  have hlen' : data.length - 4 < BLOCK_SIZE := by simpa using hlen
  cases events with
  | nil => rw [getLoop_nil]; simp [h3, hne, hlen']
  | cons e rest =>
    cases e with
    | timeout => rw [getLoop_cons_tmo]; simp [h3, hne, hlen']
    | datagram d a => rw [getLoop_cons_dg]; simp [h3, hne, hlen']

/-- One non-final step of the upload block loop on a received datagram:
    the current chunk is sent to the current peer, the datagram and its
    source are observed, and the loop re-enters on the next chunk with
    the counter advanced exactly on a matching ack. -/
theorem putLoop_datagram_step (bn : Nat) (rem : List Nat) (addr : Nat) (d : List Nat) (a : Nat)
    (rest : List NetEvent) (hch : (rem.take BLOCK_SIZE).isEmpty = false) (hbn : bn ≤ 32767) :
    putLoop bn rem addr (.datagram d a :: rest) =
      (.sent ([0, OPCODE_DATA] ++ [bn / 256, bn % 256] ++ rem.take BLOCK_SIZE) addr ::
        .rcvd d a ::
        (putLoop (if beNat ((d.take 4).take 2) = OPCODE_ACK ∧ beNat ((d.take 4).drop 2) = bn
            then bn + 1 else bn) (rem.drop BLOCK_SIZE) a rest).1,
       (putLoop (if beNat ((d.take 4).take 2) = OPCODE_ACK ∧ beNat ((d.take 4).drop 2) = bn
            then bn + 1 else bn) (rem.drop BLOCK_SIZE) a rest).2) := by
  rw [putLoop_cons_dg]
  simp [hch, data_packet, pack_h, hbn]

/-- C1: the claim states that an upload of a file whose size is an exact
    multiple of 512 bytes sends size/512 + 1 Data blocks, the last with a
    zero-length payload.  The code instead leaves the loop as soon as a
    read returns zero bytes without sending a final empty Data block:
    for a 512-byte file with all acks arriving in order, exactly one Data
    block is sent, its payload is the full 512 bytes, and the run still
    reaches the terminal success state. -/
theorem upload_exact_multiple_c1 :
    dataSends (tftp_put [102] (some (List.replicate 512 3)) 5
        [.datagram [0, 4, 0, 0] 7, .datagram [0, 4, 0, 1] 7]).1
      = [[0, 3, 0, 1] ++ List.replicate 512 3] ∧
    (tftp_put [102] (some (List.replicate 512 3)) 5
        [.datagram [0, 4, 0, 0] 7, .datagram [0, 4, 0, 1] 7]).2 = PutResult.done :=
  ⟨rfl, rfl⟩

/-- C2: the claim states that on a timeout in the upload block loop the
    client resends the same Data block with identical payload.  The code's
    `continue` re-enters the loop top, which reads the NEXT chunk of the
    file: on a 1024-byte file (first chunk all 1s, second all 2s) with a
    timeout after the first Data block, the packet sent after the timeout
    carries the same block number 1 but the second chunk as payload, so
    the first chunk is never retransmitted. -/
theorem upload_timeout_resend_c2 :
    (tftp_put [102] (some (List.replicate 512 1 ++ List.replicate 512 2)) 5
        [.datagram [0, 4, 0, 0] 7, .timeout, .datagram [0, 4, 0, 1] 7]).1
      = [.sent (send_wrq_bytes [102] DEFAULT_TRANSFER_MODE) 5,
         .rcvd [0, 4, 0, 0] 7,
         .sent ([0, 3, 0, 1] ++ List.replicate 512 1) 7,
         .tmo,
         .sent ([0, 3, 0, 1] ++ List.replicate 512 2) 7,
         .rcvd [0, 4, 0, 1] 7] ∧
    (tftp_put [102] (some (List.replicate 512 1 ++ List.replicate 512 2)) 5
        [.datagram [0, 4, 0, 0] 7, .timeout, .datagram [0, 4, 0, 1] 7]).2
      = PutResult.done :=
  ⟨rfl, rfl⟩

/-- C3 counterexample: the claim states that on a mismatched ack the
    client re-enters the same wait without reading or sending the next
    file chunk.  On a 1024-byte file, after the stale ack for block 9 the
    client's very next action is sending the second chunk (still tagged
    block 1); it does not re-enter the wait on the first chunk. -/
theorem upload_ack_mismatch_c3_counterexample :
    (tftp_put [102] (some (List.replicate 512 1 ++ List.replicate 512 2)) 5
        [.datagram [0, 4, 0, 0] 7, .datagram [0, 4, 0, 9] 7, .datagram [0, 4, 0, 1] 7]).1
      = [.sent (send_wrq_bytes [102] DEFAULT_TRANSFER_MODE) 5,
         .rcvd [0, 4, 0, 0] 7,
         .sent ([0, 3, 0, 1] ++ List.replicate 512 1) 7,
         .rcvd [0, 4, 0, 9] 7,
         .sent ([0, 3, 0, 1] ++ List.replicate 512 2) 7,
         .rcvd [0, 4, 0, 1] 7] ∧
    (tftp_put [102] (some (List.replicate 512 1 ++ List.replicate 512 2)) 5
        [.datagram [0, 4, 0, 0] 7, .datagram [0, 4, 0, 9] 7, .datagram [0, 4, 0, 1] 7]).2
      = PutResult.done :=
  ⟨rfl, rfl⟩

/-- C3 (amended): in the upload block loop, when the received datagram is
    not an Ack for the block just sent, the block counter is not advanced,
    but the loop does not re-enter the same wait: it proceeds to read the
    next file chunk and send it under the same (un-advanced) block number
    before waiting again. -/
theorem upload_ack_mismatch_c3 (bn : Nat) (rem : List Nat) (addr : Nat) (d : List Nat)
    (a : Nat) (rest : List NetEvent)
    (hne : ¬(beNat ((d.take 4).take 2) = OPCODE_ACK ∧ beNat ((d.take 4).drop 2) = bn))
    (hch : (rem.take BLOCK_SIZE).isEmpty = false) (hbn : bn ≤ 32767) :
    putLoop bn rem addr (.datagram d a :: rest) =
      (.sent ([0, OPCODE_DATA] ++ [bn / 256, bn % 256] ++ rem.take BLOCK_SIZE) addr ::
        .rcvd d a ::
        (putLoop bn (rem.drop BLOCK_SIZE) a rest).1,
       (putLoop bn (rem.drop BLOCK_SIZE) a rest).2) := by
  rw [putLoop_datagram_step bn rem addr d a rest hch hbn, if_neg hne]

/-- Witness for C3 at a concrete input: one chunk remaining, one stale
    ack for block 2 while block 1 is in flight. -/
theorem upload_ack_mismatch_c3_witness :
    putLoop 1 [9] 5 [.datagram [0, 4, 0, 2] 7] =
      (.sent ([0, OPCODE_DATA] ++ [1 / 256, 1 % 256] ++ ([9] : List Nat).take BLOCK_SIZE) 5 ::
        .rcvd [0, 4, 0, 2] 7 ::
        (putLoop 1 (([9] : List Nat).drop BLOCK_SIZE) 7 []).1,
       (putLoop 1 (([9] : List Nat).drop BLOCK_SIZE) 7 []).2) :=
  upload_ack_mismatch_c3 1 [9] 5 [0, 4, 0, 2] 7 [] (by decide) (by decide) (by decide)

/-- C4: in the download loop, a Data datagram whose block number differs
    from the expected counter is not written and not acked and does not
    advance the counter, yet the payload-length termination check still
    runs: a short non-matching block ends the transfer successfully,
    while a full-size non-matching block leaves state unchanged and waits
    for the next datagram. -/
theorem download_block_mismatch_c4 (bn : Nat) (out data : List Nat) (addr : Nat)
    (h3 : beNat (data.take 2) = OPCODE_DATA)
    (hne : beNat ((data.drop 2).take 2) ≠ bn) :
    (∀ events : List NetEvent, (data.drop 4).length < BLOCK_SIZE →
       getLoop bn out data addr events = ([], .done out)) ∧
    (∀ (d : List Nat) (a : Nat) (rest : List NetEvent),
       ¬(data.drop 4).length < BLOCK_SIZE →
       getLoop bn out data addr (.datagram d a :: rest) =
         (.rcvd d a :: (getLoop bn out (d.take 516) a rest).1,
          (getLoop bn out (d.take 516) a rest).2)) := by
  refine ⟨fun events hlen => getLoop_mismatch_short bn out data addr events h3 hne hlen, ?_⟩
  intro d a rest hlen
  have hlen' : ¬ data.length - 4 < BLOCK_SIZE := by simpa using hlen
  rw [getLoop_cons_dg]
  simp [h3, hne, hlen']

/-- Witness for C4 at a concrete input: expected block 1, received Data
    block 2 with empty payload; the run terminates successfully with
    nothing written and nothing sent. -/
theorem download_block_mismatch_c4_witness :
    getLoop 1 [] [0, 3, 0, 2] 6 [] = ([], GetResult.done []) :=
  (download_block_mismatch_c4 1 [] [0, 3, 0, 2] 6 (by decide) (by decide)).1 [] (by decide)

/-- C6 counterexample: the claim states that for BOTH upload and download
    an Error packet from the peer is fatal and nothing further is sent.
    In the upload loop an Error packet (opcode 5, code 1) is handled like
    any non-matching ack: the client keeps going and sends another Data
    packet right after receiving it. -/
theorem error_packet_c6_counterexample :
    (tftp_put [102] (some (List.replicate 512 1 ++ List.replicate 512 2)) 5
        [.datagram [0, 4, 0, 0] 7, .datagram [0, 5, 0, 1] 7, .datagram [0, 4, 0, 1] 7]).1
      = [.sent (send_wrq_bytes [102] DEFAULT_TRANSFER_MODE) 5,
         .rcvd [0, 4, 0, 0] 7,
         .sent ([0, 3, 0, 1] ++ List.replicate 512 1) 7,
         .rcvd [0, 5, 0, 1] 7,
         .sent ([0, 3, 0, 1] ++ List.replicate 512 2) 7,
         .rcvd [0, 4, 0, 1] 7] ∧
    (tftp_put [102] (some (List.replicate 512 1 ++ List.replicate 512 2)) 5
        [.datagram [0, 4, 0, 0] 7, .datagram [0, 5, 0, 1] 7, .datagram [0, 4, 0, 1] 7]).2
      = PutResult.done :=
  ⟨rfl, rfl⟩

/-- C6 (amended): for download, receiving an Error packet is fatal: the
    loop terminates at once, surfaces the message looked up from the
    error code (codes 0-7 map to the fixed table, every other code to
    "Unknown error"), and sends nothing further.  Upload has no Error
    handling: an Error datagram is treated like a non-matching ack and
    the transfer continues sending. -/
theorem error_packet_c6 :
    (∀ (bn : Nat) (out data : List Nat) (addr : Nat) (events : List NetEvent),
       beNat (data.take 2) = OPCODE_ERROR →
       getLoop bn out data addr events =
         ([], .serverError (errMsg (beNat ((data.drop 2).take 2))) out)) ∧
    (∀ c : Nat, 8 ≤ c → errMsg c = "Unknown error") ∧
    (∀ (bn : Nat) (rem : List Nat) (addr : Nat) (d : List Nat) (a : Nat)
       (rest : List NetEvent),
       beNat ((d.take 4).take 2) = OPCODE_ERROR →
       (rem.take BLOCK_SIZE).isEmpty = false → bn ≤ 32767 →
       putLoop bn rem addr (.datagram d a :: rest) =
         (.sent ([0, OPCODE_DATA] ++ [bn / 256, bn % 256] ++ rem.take BLOCK_SIZE) addr ::
           .rcvd d a ::
           (putLoop bn (rem.drop BLOCK_SIZE) a rest).1,
          (putLoop bn (rem.drop BLOCK_SIZE) a rest).2)) := by
  refine ⟨?_, ?_, ?_⟩
  · intro bn out data addr events h5
    cases events with
    | nil => rw [getLoop_nil]; simp [h5, OPCODE_ERROR, OPCODE_DATA]
    | cons e rest =>
      cases e with
      | timeout => rw [getLoop_cons_tmo]; simp [h5, OPCODE_ERROR, OPCODE_DATA]
      | datagram d a => rw [getLoop_cons_dg]; simp [h5, OPCODE_ERROR, OPCODE_DATA]
  · intro c hc
    have h0 : c ≠ 0 := by omega
    have h1 : c ≠ 1 := by omega
    have h2 : c ≠ 2 := by omega
    have h3 : c ≠ 3 := by omega
    have h4 : c ≠ 4 := by omega
    have h5 : c ≠ 5 := by omega
    have h6 : c ≠ 6 := by omega
    have h7 : c ≠ 7 := by omega
    simp [errMsg, ERROR_CODE, h0, h1, h2, h3, h4, h5, h6, h7]
  · intro bn rem addr d a rest h5 hch hbn
    have hne : ¬(beNat ((d.take 4).take 2) = OPCODE_ACK ∧ beNat ((d.take 4).drop 2) = bn) := by
      simp [h5, OPCODE_ERROR, OPCODE_ACK]
    rw [putLoop_datagram_step bn rem addr d a rest hch hbn, if_neg hne]

/-- Witness for C6 at a concrete input: the download loop on an Error
    packet with code 1 surfaces the fixed message and sends nothing. -/
theorem error_packet_c6_witness :
    getLoop 1 [] [0, 5, 0, 1] 6 [] = ([], GetResult.serverError "File not found." []) :=
  error_packet_c6.1 1 [] [0, 5, 0, 1] 6 [] (by decide)

/-- C7 counterexample: the claim states that a local-file open failure is
    reported before any network activity.  With an unreadable source the
    upload still sends the WRQ (and with an uncreatable destination the
    download still sends the RRQ) before the open is even attempted: the
    failing run's trace contains the request send. -/
theorem file_open_order_c7_counterexample :
    tftp_put [102] none 5 [.datagram [0, 4, 0, 0] 7] =
      ([.sent (send_wrq_bytes [102] DEFAULT_TRANSFER_MODE) 5, .rcvd [0, 4, 0, 0] 7],
       .openError) ∧
    tftp_get [102] false 5 [.datagram [0, 3, 0, 1, 9] 7] =
      ([.sent (send_rrq_bytes [102] DEFAULT_TRANSFER_MODE) 5, .rcvd [0, 3, 0, 1, 9] 7],
       .openError) :=
  ⟨rfl, rfl⟩

/-- C7 (amended): the local file is opened only after the request has
    been sent and the server's first response received, so an open
    failure always happens after network activity (exactly the request
    is already on the wire); if the server never responds, the open is
    never attempted and the run ends as a handshake timeout instead. -/
theorem file_open_order_c7 (fn d : List Nat) (a0 a : Nat) (rest : List NetEvent) :
    tftp_put fn none a0 (.datagram d a :: rest) =
      ([.sent (send_wrq_bytes fn DEFAULT_TRANSFER_MODE) a0, .rcvd d a], .openError) ∧
    tftp_get fn false a0 (.datagram d a :: rest) =
      ([.sent (send_rrq_bytes fn DEFAULT_TRANSFER_MODE) a0, .rcvd d a], .openError) ∧
    tftp_put fn none a0 (.timeout :: rest) =
      ([.sent (send_wrq_bytes fn DEFAULT_TRANSFER_MODE) a0, .tmo], .noServerResponse) :=
  ⟨rfl, rfl, rfl⟩

/-- C8: if the first receive after the initial request times out, both
    upload and download terminate with the no-server-response outcome
    after that single timeout; the trace shows exactly one send (the
    request, never retransmitted), no Data bytes sent and, for download,
    no bytes written. -/
theorem handshake_timeout_c8 (fn : List Nat) (fc : Option (List Nat)) (co : Bool)
    (a0 : Nat) (rest : List NetEvent) :
    tftp_put fn fc a0 (.timeout :: rest) =
      ([.sent (send_wrq_bytes fn DEFAULT_TRANSFER_MODE) a0, .tmo], .noServerResponse) ∧
    tftp_get fn co a0 (.timeout :: rest) =
      ([.sent (send_rrq_bytes fn DEFAULT_TRANSFER_MODE) a0, .tmo], .noServerResponse) :=
  ⟨rfl, rfl⟩

/-- C9 counterexample: the claim states that decoding fails with a
    MalformedPacket error on a buffer shorter than the minimum size for
    its opcode and never silently yields a well-formed message.  The
    two-byte buffer consisting only of the Data opcode is parsed as a
    well-formed Data message with block number 0 and empty payload, and
    the download loop even terminates successfully on it. -/
theorem decode_no_validation_c9_counterexample :
    decode_data_fields [0, 3] = (OPCODE_DATA, 0, []) ∧
    getLoop 1 [] [0, 3] 6 [] = ([], GetResult.done []) :=
  ⟨rfl, rfl⟩

/-- C9 (amended): the code performs no length validation when decoding:
    missing header bytes read as zero and a missing payload as empty, so
    a truncated Data buffer is silently processed (and, being short, even
    ends the download successfully); an unrecognized opcode makes the
    download loop terminate silently rather than fail with a
    MalformedPacket error. -/
theorem decode_no_validation_c9 :
    (∀ (bn : Nat) (out data : List Nat) (addr : Nat) (events : List NetEvent),
       beNat (data.take 2) ≠ OPCODE_DATA → beNat (data.take 2) ≠ OPCODE_ERROR →
       getLoop bn out data addr events = ([], .protocolViolation out)) ∧
    (∀ (bn : Nat) (out : List Nat) (addr : Nat) (events : List NetEvent), bn ≠ 0 →
       getLoop bn out [0, 3] addr events = ([], .done out)) := by
  constructor
  · intro bn out data addr events h3 h5
    cases events with
    | nil => rw [getLoop_nil]; simp [h3, h5]
    | cons e rest =>
      cases e with
      | timeout => rw [getLoop_cons_tmo]; simp [h3, h5]
      | datagram d a => rw [getLoop_cons_dg]; simp [h3, h5]
  · intro bn out addr events hbn
    exact getLoop_mismatch_short bn out [0, 3] addr events rfl (Ne.symm hbn) (by decide)

/-- Witness for C9 at a concrete input: an Ack packet arriving in the
    download loop makes it terminate silently. -/
theorem decode_no_validation_c9_witness :
    getLoop 1 [] [0, 4, 0, 1] 6 [] = ([], GetResult.protocolViolation []) :=
  decode_no_validation_c9.1 1 [] [0, 4, 0, 1] 6 [] (by decide) (by decide)

/-- C10: in both upload and download, every send is addressed to the
    source of the most recently received datagram (or to the initial
    server address while nothing has been received yet): the peer address
    is rebound on every successful receive, not only on the first
    response. -/
theorem peer_rebinding_c10 (fn : List Nat) (fc : Option (List Nat)) (co : Bool)
    (a0 : Nat) (events : List NetEvent) :
    sendsFollowLast a0 (tftp_put fn fc a0 events).1 = true ∧
    sendsFollowLast a0 (tftp_get fn co a0 events).1 = true := by
  constructor
  · cases events with
    | nil => simp [tftp_put]
    | cons e rest =>
      cases e with
      | timeout => simp [tftp_put]
      | datagram d a =>
        cases fc with
        | none => simp [tftp_put]
        | some content => simpa [tftp_put] using putLoop_sends rest 1 content a
  · cases events with
    | nil => simp [tftp_get]
    | cons e rest =>
      cases e with
      | timeout => simp [tftp_get]
      | datagram d a =>
        cases co with
        | false => simp [tftp_get]
        | true => simpa [tftp_get] using getLoop_sends rest 1 [] (d.take 516) a

/-- C5: the claim states the Data encode/decode round trip holds for all
    block numbers up to 65535 with wrap-around at 65536.  The encoder
    packs the block number with a signed 16-bit directive, so encoding
    fails (struct.error) at 32768; the round trip does hold at 32767 and
    below. -/
theorem data_packet_roundtrip_c5 :
    data_packet 32768 (List.replicate 512 0) = none ∧
    (data_packet 32767 (List.replicate 512 9)).map decode_data_fields
      = some (OPCODE_DATA, 32767, List.replicate 512 9) ∧
    (data_packet 1 [250, 251]).map decode_data_fields
      = some (OPCODE_DATA, 1, [250, 251]) :=
  ⟨rfl, rfl, rfl⟩

end Tftp
